import Mathlib

/-!
Verification of the request handlers of src/saul_coap.c.

The file embeds the four handlers of the module as pure Lean functions over
an explicit registry value: the count handler, the device-info handler, the
sensor-type query handler and the shared type responder. The registry, the
fmt collaborator and the C library calls they use (saul_reg_find_type,
saul_reg_find_nth, fmt_u16_dec, strtoul, atoi, snprintf) are embedded
alongside. A handler is modelled as a function from its inputs (request
payload or query bytes, the reply-buffer payload capacity left after
coap_opt_finish, and the registry) to the status code it commits together
with the payload bytes it copies into the reply buffer.
-/

/-- CoAP status codes committed by the handlers: COAP_CODE_CONTENT (2.05),
COAP_CODE_204 (2.04, called success/no-content by the module),
COAP_CODE_BAD_REQUEST (4.00), COAP_CODE_404 (4.04) and
COAP_CODE_INTERNAL_SERVER_ERROR (5.00). -/
inductive Code where
  | content
  | noContent
  | badRequest
  | notFound
  | internalError
deriving DecidableEq

/-- A handler outcome: the status code it commits and the payload bytes it
copies into the reply buffer. -/
structure Response where
  code : Code
  payload : List Char
deriving DecidableEq

/-- One SAUL registry entry as the handlers observe it through the external
registry: the device class byte (dev.driver.type), the device name, and the
outcome of saul_reg_read on the device (the returned dimension, and the
first entry of res.val, an int16 quantity). -/
structure SaulDev where
  type : Nat
  name : List Char
  dim : Int
  val0 : Int
deriving DecidableEq

/-- The registry is the linked list rooted at saul_reg, in registration
order. -/
abbrev Registry := List SaulDev

/-- saul_reg_find_type: the first device of the list whose driver type byte
equals the requested one, none when there is no such device. -/
def saul_reg_find_type (reg : Registry) (t : Nat) : Option SaulDev :=
  reg.find? (fun d => d.type == t)

/-- saul_reg_find_nth: the device at position pos of the registry list,
none when pos is at or past the end. -/
def saul_reg_find_nth (reg : Registry) (pos : Nat) : Option SaulDev :=
  reg[pos]?

/-- Decimal value of a digit string, most significant digit first. -/
def digitsVal (ds : List Char) : Nat :=
  ds.foldl (fun a c => a * 10 + (c.toNat - 48)) 0

/-- strtoul with base 10, applied by the device-info handler to the
zero-padded copy of the request payload: the leading run of decimal digits
is converted, and a payload with no leading digit yields 0. (The sign and
whitespace handling of C strtoul is not exercised by the requests
considered here, which carry plain decimal indices.) -/
def strtoul10 (s : List Char) : Nat :=
  digitsVal (s.takeWhile Char.isDigit)

/-- C atoi, applied to the nul-padded type_number buffer: an optional sign
followed by the leading run of decimal digits. -/
def atoi (s : List Char) : Int :=
  if s.head? = some '-' then
    - (digitsVal ((s.drop 1).takeWhile Char.isDigit) : Int)
  else if s.head? = some '+' then
    (digitsVal ((s.drop 1).takeWhile Char.isDigit) : Int)
  else
    (digitsVal (s.takeWhile Char.isDigit) : Int)

/-- fmt_u16_dec from the fmt collaborator: renders its uint16 argument in
decimal and writes it to the destination; the conversion of a wider
argument to the uint16 parameter reduces it mod 2 ^ 16. -/
def fmt_u16_dec (val : Nat) : List Char :=
  (Nat.repr (val % 65536)).data

/-- The C integer conversion from a signed value (the int16 first reading
value) to the uint16 parameter of fmt_u16_dec. -/
def uint16_of_int (v : Int) : Nat :=
  (v % 65536).toNat

/-- _sense_type_responder: look up a device by type, read it, and either
render the first value or commit a 404 with a best-effort diagnostic. cap
is pdu.payload_len after coap_opt_finish, the payload capacity of the
reply buffer; each diagnostic is copied only when it fits, while the
success path writes the fmt_u16_dec digits without a capacity test, as in
the source. -/
def _sense_type_responder (reg : Registry) (cap : Nat) (t : Nat) : Response :=
  match saul_reg_find_type reg t with
  | none =>
    if ("device not found".data).length ≤ cap then
      ⟨Code.notFound, "device not found".data⟩
    else
      ⟨Code.notFound, []⟩
  | some dev =>
    if dev.dim ≤ 0 then
      if ("no values found".data).length ≤ cap then
        ⟨Code.notFound, "no values found".data⟩
      else
        ⟨Code.notFound, []⟩
    else
      ⟨Code.content, fmt_u16_dec (uint16_of_int dev.val0)⟩

/-- _saul_cnt_handler: walk the registry list counting entries and write
the count with fmt_u16_dec. The source consults no capacity on this path,
so the cap argument is unused. -/
def _saul_cnt_handler (reg : Registry) (_cap : Nat) : Response :=
  ⟨Code.content, fmt_u16_dec reg.length⟩

/-- _saul_dev_handler: req is the request payload carrying a decimal device
index, cap the reply-buffer payload capacity after coap_opt_finish, and
classToStr the external saul_class_to_str table. The source passes a NULL
destination and the size strlen class + strlen name + sizeof int to
snprintf, which is undefined behaviour in C; the model gives that call the
defined snprintf semantics for a destination buffer of the stated size, so
at most payl_size - 1 characters of the formatted line survive. -/
def _saul_dev_handler (classToStr : Nat → List Char) (reg : Registry)
    (req : List Char) (cap : Nat) : Response :=
  if req.length ≤ 5 then
    match saul_reg_find_nth reg (strtoul10 req) with
    | none =>
      if ("device not found".data).length ≤ cap then
        ⟨Code.notFound, "device not found".data⟩
      else
        ⟨Code.internalError, []⟩
    | some dev =>
      let class_str := classToStr dev.type
      let payl_size := class_str.length + dev.name.length + 4
      let payl := ((Nat.repr (strtoul10 req)).data ++ [','] ++ class_str
        ++ [','] ++ dev.name ++ ['\n']).take (payl_size - 1)
      if payl.length ≤ cap then
        ⟨Code.noContent, payl⟩
      else
        ⟨Code.internalError, []⟩
  else ⟨Code.badRequest, []⟩

/-- _saul_sensortype_handler: query holds the URI query bytes as rebuilt by
coap_get_uri_query, that is with a leading ampersand before the key-value
pair, and the size the source tests is the byte count written including
the terminating nul, here query.length + 1. The value parsed by atoi is
assigned to a uint8 variable, hence taken mod 256. -/
def _saul_sensortype_handler (reg : Registry) (cap : Nat)
    (query : List Char) : Response :=
  if query.length + 1 < 9 ∨ 11 < query.length + 1 then
    ⟨Code.badRequest, []⟩
  else
    _sense_type_responder reg cap ((atoi ((query.drop 7).take 3) % 256).toNat)

/-- Modelled from the spec: the decoder of the round-trip property of
Device-Info payloads, which is not part of the source. It strips the
trailing newline when present and splits the CSV-style line at commas into
the index, class and name components. -/
def decode_dev_info (p : List Char) : Option (Nat × List Char × List Char) :=
  let q := if p.getLast? = some '\n' then p.dropLast else p
  match q.splitOn ',' with
  | [i, c, n] => some (digitsVal i, c, n)
  | _ => none

/-- A concrete class-name table for concrete evaluations: every class byte
maps to the string SENSE_TEMP (the byte 130 is SAUL_SENSE_TEMP). -/
def classToStr0 : Nat → List Char := fun _ => "SENSE_TEMP".data

/-- A concrete registry entry used in concrete evaluations. -/
def dev0 : SaulDev := ⟨130, "d".data, 1, 0⟩

/-- An 11-entry registry whose last device is named ab. -/
def reg9 : Registry := List.replicate 10 dev0 ++ [⟨130, "ab".data, 1, 0⟩]

/-- Helper: a list all of whose elements satisfy p is its own takeWhile. -/
theorem takeWhile_all {α : Type} (p : α → Bool) :
    ∀ (l : List α), (∀ a ∈ l, p a) → l.takeWhile p = l
  | [], _ => rfl
  | a :: l, h => by
    rw [List.takeWhile_cons, if_pos (h a (List.mem_cons_self a l)),
      takeWhile_all p l (fun b hb => h b (List.mem_cons_of_mem a hb))]

/-- C1: with one registered device and a reply buffer whose payload
capacity is 0, the count handler still writes the one-digit count and the
type responder still writes the five digits of the reading, so the payload
exceeds the supplied capacity: neither success path checks fit before
writing, contradicting the claimed invariant. -/
theorem c1_unchecked_write :
    (_saul_cnt_handler [dev0] 0).payload = "1".data ∧
    0 < (_saul_cnt_handler [dev0] 0).payload.length ∧
    (_sense_type_responder [⟨5, "s".data, 1, 12345⟩] 0 5).payload = "12345".data ∧
    0 < (_sense_type_responder [⟨5, "s".data, 1, 12345⟩] 0 5).payload.length := by
  decide

/-- C2: for the single registered device (class string SENSE_TEMP, name x)
at index 0 and ample capacity, the device-info handler emits the line
without its trailing newline, because snprintf is bounded by
strlen class + strlen name + sizeof int, one byte short of the formatted
line for a one-digit index; the payload is therefore never exactly the
claimed index,class,name line with newline. -/
theorem c2_payload_truncated :
    _saul_dev_handler classToStr0 [⟨130, "x".data, 1, 0⟩] "0".data 100 =
      ⟨Code.noContent, "0,SENSE_TEMP,x".data⟩ ∧
    ("0,SENSE_TEMP,x".data : List Char) ≠ "0,SENSE_TEMP,x\n".data := by
  decide

/-- C9: on the 11-entry registry reg9, requesting index 10 makes snprintf
drop the final two characters of the line (the last name character and the
newline), so decoding the emitted payload recovers the name a instead of
the registered name ab: the round trip fails on the code. -/
theorem c9_roundtrip_broken :
    _saul_dev_handler classToStr0 reg9 "10".data 100 =
      ⟨Code.noContent, "10,SENSE_TEMP,a".data⟩ ∧
    decode_dev_info "10,SENSE_TEMP,a".data =
      some (10, "SENSE_TEMP".data, "a".data) ∧
    some (10, ("SENSE_TEMP".data : List Char), ("a".data : List Char)) ≠
      some (10, ("SENSE_TEMP".data : List Char), ("ab".data : List Char)) := by
  decide

/-- C3 counterexample: a readable device of type 5 whose first value is -1
makes the type responder return content with payload 65535, which is not
the decimal text of the reading -1, refuting the claim for negative first
values. -/
theorem c3_negative_reading :
    _sense_type_responder [⟨5, "s".data, 1, -1⟩] 20 5 =
      ⟨Code.content, "65535".data⟩ ∧
    ("65535".data : List Char) ≠ "-1".data := by
  decide

/-- C6 counterexample: the accepted query class=300 is truncated to the
type byte 44 before delegation, so the handler answers for type 44 (here a
registered, readable device) while the type responder invoked with 300
itself reports not-found: the handler does not delegate with exactly the
parsed integer. -/
theorem c6_type_truncated :
    _saul_sensortype_handler [⟨44, "s".data, 1, 7⟩] 20 "&class=300".data =
      ⟨Code.content, "7".data⟩ ∧
    _sense_type_responder [⟨44, "s".data, 1, 7⟩] 20 300 =
      ⟨Code.notFound, "device not found".data⟩ ∧
    _saul_sensortype_handler [⟨44, "s".data, 1, 7⟩] 20 "&class=300".data ≠
      _sense_type_responder [⟨44, "s".data, 1, 7⟩] 20 300 := by
  decide

/-- C4: the two failure branches of the type responder. When no device of
the requested type exists the handler commits 404 and embeds the message
device not found exactly when it fits the capacity, leaving the payload
empty otherwise; when a device exists but its read reports a non-positive
dimension it commits 404 with the distinct message no values found under
the same fit policy. -/
theorem c4_not_found_policy (reg : Registry) (cap t : Nat) :
    (saul_reg_find_type reg t = none →
      _sense_type_responder reg cap t =
        if ("device not found".data).length ≤ cap then
          ⟨Code.notFound, "device not found".data⟩
        else ⟨Code.notFound, []⟩) ∧
    (∀ dev, saul_reg_find_type reg t = some dev → dev.dim ≤ 0 →
      _sense_type_responder reg cap t =
        if ("no values found".data).length ≤ cap then
          ⟨Code.notFound, "no values found".data⟩
        else ⟨Code.notFound, []⟩) := by
  constructor
  · intro h
    unfold _sense_type_responder
    rw [h]
  · intro dev h hdim
    unfold _sense_type_responder
    rw [h]
    simp only [if_pos hdim]

/-- C4 witness: an empty registry yields 404 with the embedded message at
capacity 20, and a device of type 3 whose read reports dimension 0 yields
404 with the distinct message. -/
theorem c4_witness :
    _sense_type_responder [] 20 3 = ⟨Code.notFound, "device not found".data⟩ ∧
    _sense_type_responder [⟨3, "s".data, 0, 0⟩] 20 3 =
      ⟨Code.notFound, "no values found".data⟩ := by
  constructor
  · have h := (c4_not_found_policy [] 20 3).1 (by decide)
    rw [if_pos (by decide)] at h
    exact h
  · have h := (c4_not_found_policy [⟨3, "s".data, 0, 0⟩] 20 3).2
      ⟨3, "s".data, 0, 0⟩ (by decide) (by decide)
    rw [if_pos (by decide)] at h
    exact h

/-- C5: a query whose reported size (length plus terminating nul) lies
below 9 or above 11 makes the sensor-type handler return bad-request with
an empty payload, and the result does not depend on the registry, which is
never consulted; a device-info request body longer than 5 bytes likewise
returns bad-request. -/
theorem c5_bad_request (reg reg2 : Registry) (cap : Nat) (q p : List Char)
    (f : Nat → List Char)
    (hq : q.length + 1 < 9 ∨ 11 < q.length + 1) (hp : 5 < p.length) :
    _saul_sensortype_handler reg cap q = ⟨Code.badRequest, []⟩ ∧
    _saul_sensortype_handler reg cap q = _saul_sensortype_handler reg2 cap q ∧
    _saul_dev_handler f reg p cap = ⟨Code.badRequest, []⟩ := by
  have h1 : ∀ r : Registry, _saul_sensortype_handler r cap q =
      ⟨Code.badRequest, []⟩ := by
    intro r
    unfold _saul_sensortype_handler
    rw [if_pos hq]
  refine ⟨h1 reg, (h1 reg).trans (h1 reg2).symm, ?_⟩
  unfold _saul_dev_handler
  rw [if_neg (by omega)]

/-- C5 witness: the six-byte query missing its value and a six-byte
device-info body are both rejected with bad-request. -/
theorem c5_witness :
    _saul_sensortype_handler [] 10 "&class".data = ⟨Code.badRequest, []⟩ ∧
    _saul_dev_handler classToStr0 [] "123456".data 10 =
      ⟨Code.badRequest, []⟩ := by
  constructor
  · exact (c5_bad_request [] [] 10 "&class".data "123456".data classToStr0
      (by decide) (by decide)).1
  · exact (c5_bad_request [] [] 10 "&class".data "123456".data classToStr0
      (by decide) (by decide)).2.2

/-- C7: when the accepted request body parses to an index at or past the
registry length, the lookup misses and the device-info handler returns 404
with the message device not found exactly when it fits the capacity, and
internal-error with an empty payload otherwise. -/
theorem c7_out_of_range (f : Nat → List Char) (reg : Registry)
    (s : List Char) (cap : Nat)
    (h5 : s.length ≤ 5) (hge : reg.length ≤ strtoul10 s) :
    _saul_dev_handler f reg s cap =
      if ("device not found".data).length ≤ cap then
        ⟨Code.notFound, "device not found".data⟩
      else ⟨Code.internalError, []⟩ := by
  have hn : saul_reg_find_nth reg (strtoul10 s) = none := by
    unfold saul_reg_find_nth
    exact List.getElem?_eq_none hge
  unfold _saul_dev_handler
  rw [if_pos h5, hn]

/-- C7 witness: index 3 on the empty registry yields 404 with the embedded
message at capacity 20. -/
theorem c7_witness :
    _saul_dev_handler classToStr0 [] "3".data 20 =
      ⟨Code.notFound, "device not found".data⟩ := by
  have h := c7_out_of_range classToStr0 [] "3".data 20 (by decide) (by decide)
  rw [if_pos (by decide)] at h
  exact h

/-- C8 counterexample: a registry of 65536 devices makes the count handler
emit the payload 0, because the count is passed through the uint16
parameter of fmt_u16_dec, while the decimal text of the count is 65536:
the payload is not the device count in decimal. -/
theorem c8_count_wraps :
    (_saul_cnt_handler (List.replicate 65536 dev0) 40).payload = "0".data ∧
    (Nat.repr (List.replicate 65536 dev0).length).data = "65536".data ∧
    ("0".data : List Char) ≠ "65536".data := by
  have hpay : ∀ (r : Registry) (c : Nat),
      (_saul_cnt_handler r c).payload = fmt_u16_dec r.length :=
    fun _ _ => rfl
  refine ⟨?_, ?_, by decide⟩
  · rw [hpay, List.length_replicate]
    decide
  · rw [List.length_replicate]
    decide

/-- C8 amended: the count handler always returns content with the device
count reduced mod 2 ^ 16 in decimal, which is the exact count whenever the
registry holds fewer than 65536 devices, and in particular the payload 0
for an empty registry. -/
theorem c8_count_decimal (reg : Registry) (cap : Nat) :
    _saul_cnt_handler reg cap =
      ⟨Code.content, (Nat.repr (reg.length % 65536)).data⟩ ∧
    (reg.length < 65536 →
      (_saul_cnt_handler reg cap).payload = (Nat.repr reg.length).data) ∧
    (reg = [] → (_saul_cnt_handler reg cap).payload = "0".data) := by
  refine ⟨rfl, ?_, ?_⟩
  · intro h
    show (Nat.repr (reg.length % 65536)).data = _
    rw [Nat.mod_eq_of_lt h]
  · intro h
    subst h
    rfl

/-- C8 witness: the empty registry yields content with payload 0. -/
theorem c8_witness : (_saul_cnt_handler [] 7).payload = "0".data :=
  (c8_count_decimal [] 7).2.2 rfl

/-- C3 amended: when a device of the requested type exists, its read
reports a positive dimension and its first value is nonnegative (hence
below 2 ^ 16, the int16 range being narrower), the type responder returns
content with that value in decimal. -/
theorem c3_content_on_success (reg : Registry) (cap t : Nat) (dev : SaulDev)
    (hfind : saul_reg_find_type reg t = some dev) (hdim : 0 < dev.dim)
    (h0 : 0 ≤ dev.val0) (hlt : dev.val0 < 65536) :
    _sense_type_responder reg cap t =
      ⟨Code.content, (Nat.repr dev.val0.toNat).data⟩ := by
  unfold _sense_type_responder
  simp only [hfind]
  rw [if_neg (by omega)]
  unfold fmt_u16_dec uint16_of_int
  rw [Int.emod_eq_of_lt h0 hlt, Nat.mod_eq_of_lt (by omega)]

/-- C3 witness: a device of type 5 reading the single value 7 yields
content with payload 7. -/
theorem c3_witness :
    _sense_type_responder [⟨5, "s".data, 1, 7⟩] 4 5 =
      ⟨Code.content, "7".data⟩ := by
  have h := c3_content_on_success [⟨5, "s".data, 1, 7⟩] 4 5
    ⟨5, "s".data, 1, 7⟩ (by decide) (by decide) (by decide) (by decide)
  exact h.trans (by decide)

/-- C10: on the success path the first reading value, an int16 quantity,
is rendered by the uint16 formatter, so the payload is the decimal text of
the value reduced mod 2 ^ 16; in particular the reading -1 is emitted as
65535. -/
theorem c10_two_complement_rendering (reg : Registry) (cap t : Nat)
    (dev : SaulDev)
    (hfind : saul_reg_find_type reg t = some dev) (hdim : 0 < dev.dim) :
    _sense_type_responder reg cap t =
      ⟨Code.content, (Nat.repr ((dev.val0 % 65536).toNat)).data⟩ ∧
    (dev.val0 = -1 →
      (_sense_type_responder reg cap t).payload = "65535".data) := by
  have hmain : _sense_type_responder reg cap t =
      ⟨Code.content, (Nat.repr ((dev.val0 % 65536).toNat)).data⟩ := by
    unfold _sense_type_responder
    simp only [hfind]
    rw [if_neg (by omega)]
    unfold fmt_u16_dec uint16_of_int
    rw [Nat.mod_eq_of_lt (by omega)]
  refine ⟨hmain, ?_⟩
  intro hval
  rw [hmain, hval]
  decide

/-- C10 witness: a readable device of type 9 whose first value is -1 is
rendered as 65535. -/
theorem c10_witness :
    _sense_type_responder [⟨9, "n".data, 2, -1⟩] 3 9 =
      ⟨Code.content, "65535".data⟩ := by
  have h := (c10_two_complement_rendering [⟨9, "n".data, 2, -1⟩] 3 9
    ⟨9, "n".data, 2, -1⟩ (by decide) (by decide)).1
  exact h.trans (by decide)

/-- C6 amended: an accepted query made of the constant prefix and 1 to 3
decimal digits delegates to the type responder with the digit value
reduced mod 256, the truncation performed by the uint8 type variable; the
delegated type equals the encoded integer exactly when it is below 256. -/
theorem c6_delegates_mod256 (reg : Registry) (cap : Nat) (ds : List Char)
    (hne : ds ≠ []) (hlen : ds.length ≤ 3) (hdig : ∀ c ∈ ds, c.isDigit) :
    _saul_sensortype_handler reg cap
        ('&' :: 'c' :: 'l' :: 'a' :: 's' :: 's' :: '=' :: ds) =
      _sense_type_responder reg cap (digitsVal ds % 256) := by
  have hlen1 : 1 ≤ ds.length := List.length_pos.mpr hne
  unfold _saul_sensortype_handler
  rw [if_neg (by simp only [List.length_cons]; omega)]
  have hdrop : ('&' :: 'c' :: 'l' :: 'a' :: 's' :: 's' :: '=' :: ds).drop 7
      = ds := rfl
  rw [hdrop, List.take_of_length_le hlen]
  have hhead : ∃ c cs, ds = c :: cs := by
    cases ds with
    | nil => exact absurd rfl hne
    | cons c cs => exact ⟨c, cs, rfl⟩
  obtain ⟨c, cs, hds⟩ := hhead
  subst hds
  have hc : c.isDigit := hdig c (List.mem_cons_self c cs)
  have hatoi : atoi (c :: cs) = (digitsVal (c :: cs) : Int) := by
    unfold atoi
    rw [if_neg ?hm, if_neg ?hp, takeWhile_all _ _ hdig]
    case hm =>
      intro hcontra
      rw [List.head?_cons, Option.some.injEq] at hcontra
      subst hcontra
      exact absurd hc (by decide)
    case hp =>
      intro hcontra
      rw [List.head?_cons, Option.some.injEq] at hcontra
      subst hcontra
      exact absurd hc (by decide)
  rw [hatoi]
  congr 1

/-- C6 witness: the query class=300 delegates to the type responder with
the truncated type byte 44. -/
theorem c6_witness :
    _saul_sensortype_handler [] 5 "&class=300".data =
      _sense_type_responder [] 5 44 := by
  have h := c6_delegates_mod256 [] 5 "300".data (by decide) (by decide)
    (by decide)
  have h2 : ('&' :: 'c' :: 'l' :: 'a' :: 's' :: 's' :: '=' :: "300".data)
      = "&class=300".data := by decide
  have h3 : digitsVal "300".data % 256 = 44 := by decide
  rw [h2, h3] at h
  exact h
